import Mathlib

/-!
Verification of the action-loop engine of this repository: the environment
setup loop (`launch/agent/setup.py`), the verification loop
(`git_launch/agent/verify.py`), the agent-state exception capture
(`git_launch/agent/state.py`) and the oracle-invocation retry policy
(`git_launch/utilities/llm.py`), shallowly embedded in Lean.

Python strings are embedded as Lean `String`; `str.split`, `str.strip`,
`str.lower` and the `in` operator are given executable embeddings below so
that every definition evaluates by kernel reduction.  The external
collaborators (LLM, bash session, search tool) are parameters: the oracle is
a function from the prompt to its reply text, the session and the search
tool are functions from the dispatched text to the observation text.
-/

namespace Launch

/-- Worker for `pySplit`: scans the haystack left to right, splitting at each
leftmost non-overlapping occurrence of `sep`; `fuel` bounds recursion and is
always at least the haystack length plus one at the call site. -/
def splitAux (sep : List Char) : Nat → List Char → List Char → List (List Char)
  | 0, acc, rest => [acc.reverse ++ rest]
  | _ + 1, acc, [] => [acc.reverse]
  | n + 1, acc, c :: rest =>
      if sep.isPrefixOf (c :: rest) then
        acc.reverse :: splitAux sep n [] ((c :: rest).drop sep.length)
      else splitAux sep n (c :: acc) rest

/-- Embedding of Python `s.split(sep)` for a non-empty separator: the list of
segments between leftmost non-overlapping occurrences of `sep`.  (Python
raises on an empty separator; none of the embedded call sites pass one.) -/
def pySplit (s sep : String) : List String :=
  if sep = "" then [s]
  else (splitAux sep.toList (s.toList.length + 1) [] s.toList).map (fun l => ⟨l⟩)

/-- Embedding of Python `sep in s` (substring test): `s.split(sep)` has at
least two segments exactly when `sep` occurs in `s`. -/
def pyContains (s sep : String) : Bool := decide (2 ≤ (pySplit s sep).length)

/-- Embedding of Python list indexing `l[i]` at call sites where the index is
known to be in range (guarded by a preceding `in` test in the source). -/
def pyGet (l : List String) (i : Nat) : String := l.getD i ""

/-- The whitespace characters removed by Python `str.strip()`:
space, tab, newline, carriage return, vertical tab, form feed. -/
def isPySpace (c : Char) : Bool :=
  c = ' ' || c = '\t' || c = '\n' || c = '\r' || c = Char.ofNat 11 || c = Char.ofNat 12

/-- Embedding of Python `s.strip()`: drop whitespace from both ends. -/
def pyStrip (s : String) : String :=
  ⟨((s.toList.dropWhile isPySpace).reverse.dropWhile isPySpace).reverse⟩

/-- ASCII lowercasing of one character, as Python `str.lower` acts on the
ASCII range (the only range the embedded texts use). -/
def pyLowerChar (c : Char) : Char :=
  if 'A' ≤ c ∧ c ≤ 'Z' then Char.ofNat (c.toNat + 32) else c

/-- Embedding of Python `s.lower()`. -/
def pyLower (s : String) : String := ⟨s.toList.map pyLowerChar⟩

/-- Embedding of Python `sep.join(l)`. -/
def pyJoin (sep : String) : List String → String
  | [] => ""
  | [x] => x
  | x :: y :: xs => x ++ sep ++ pyJoin sep (y :: xs)

/-- The role of a conversation message (`SystemMessage`, `HumanMessage`,
LLM reply). -/
inductive Role where
  | system
  | user
  | assistant
deriving DecidableEq, Repr

/-- A conversation message: role plus text content. -/
structure Message where
  role : Role
  content : String
deriving DecidableEq, Repr

/-- The Python exceptions the embedded code can raise, as values. -/
inductive PyExc where
  | timeoutError (msg : String)
  | attributeError (msg : String)
  | indexError (msg : String)
  | other (msg : String)
deriving DecidableEq, Repr

/-- `SetupAction` of `launch/agent/setup.py`: the `Literal` action field
together with its `args`, one constructor per admissible literal
(`args` is `None` for `stop`). -/
inductive SetupAction where
  | command (args : String)
  | search (args : String)
  | stop
deriving DecidableEq, Repr

/-- `VerifyAction` of `git_launch/agent/verify.py`. -/
inductive VerifyAction where
  | command (args : String)
  | issue (args : String)
deriving DecidableEq, Repr

/-- `SetupObservation` of `launch/agent/setup.py`. -/
structure SetupObservation where
  content : String
  is_stop : Bool
deriving DecidableEq, Repr

/-- `VerifyObservation` of `git_launch/agent/verify.py` (its only declared
field is `content`; the `success=` keyword passed at construction sites is
not a declared field and is discarded). -/
structure VerifyObservation where
  content : String
deriving DecidableEq, Repr

/-- The docstring of `SetupAction` (`SetupAction.__doc__`), used verbatim in
the clarification observation for an unparseable reply. -/
def setupActionDoc : String :=
  "\n    Command: run a command in the bash, reply with following format, your command should not require sudo or interactive input:\n        <command>bash command</command>\n        e.g. install build-essential: <command>apt-get install -y build-essential</command>\n        e.g. view file content: <command>cat README.md</command>\n    Search: search the web for if you need some information, generate query and reply with following format:\n        <search>the search query</search>\n        e.g. <search>how to fix \x27No module named setuptools\x27</search>\n        e.g. <search>how to install python3 on ubuntu</search>\n        e.g. <search>how to create development environment for python3</search>\n    Stop: stop the setup loop once you think the setup is complete, reply with following format:\n        <stop></stop>\n    "

/-- The docstring of `VerifyAction` (`VerifyAction.__doc__`). -/
def verifyActionDoc : String :=
  "\n    Command: run a command in the bash, reply with following format, your command should not require sudo or interactive input:\n        <command>...</command>\n        e.g. run pytest with detailed output turned on: <command>pytest -rA</command>\n        e.g. <command>tox -- -rA</command>\n    Issue: stop the verify loop once you think the setup is complete, and reply with the issue of the setup:\n        <issue>...</issue>\n        e.g. <issue>some dependency is missing, run `pytest` failed</issue>\n        e.g. <issue>None</issue> if you think the setup is correct (remember to tolerate a few test cases failures as long as most tests pass)\n    "

/-- The clarification text produced by `observation_for_setup_action` when
the parsed action is `None`. -/
def setupClarification : String :=
  "Please using following format after `Action: ` to make a valid action choice:\n"
    ++ setupActionDoc ++ "\n"

/-- The clarification text produced by `observation_for_verify_action` when
the parsed action is `None`. -/
def verifyClarification : String :=
  "Please using following format after `Action: ` to make a valid action choice:\n"
    ++ verifyActionDoc ++ "\n"

/-- Modelled from the spec: `ActionParser.clean_response`
(`launch/agent/action_parser.py`, not under `src/`).  The spec assigns reply
cleaning (truncation of the reasoning trace) to the Oracle Client, not to the
parser, and describes the parser as working on the raw reply and ignoring
surrounding prose, so cleaning is the identity here. -/
def clean_response (response : String) : String := response

/-- Modelled from the spec: `ActionParser.extract_tag_content`
(`launch/agent/action_parser.py`, not under `src/`).  Per the spec each
variant is delimited by a unique open/close tag pair and parsing extracts the
first well-formed tag of the requested kind, ignoring surrounding prose:
the text between the first `<tag>` and the following `</tag>`, stripped;
`none` when no well-formed tag pair is present. -/
def extract_tag_content (response tag : String) : Option String :=
  let openTag := "<" ++ tag ++ ">"
  let closeTag := "</" ++ tag ++ ">"
  if pyContains response openTag then
    let rest := pyGet (pySplit response openTag) 1
    if pyContains rest closeTag then
      some (pyStrip (pyGet (pySplit rest closeTag) 0))
    else none
  else none

/-- Python truthiness of an optional string (`if command:`):
false for `None` and for the empty string. -/
def pyTruthy : Option String → Bool
  | none => false
  | some s => s ≠ ""

/-- `SetupActionParser.parse` / `parse_setup_action` of
`launch/agent/setup.py`: try `command`, then `search` (each by truthiness of
the extracted content), then `stop` (by presence of both tags). -/
def parse_setup_action (response : String) : Option SetupAction :=
  let response := clean_response response
  let command := extract_tag_content response "command"
  if pyTruthy command then some (.command (command.getD ""))
  else
    let search := extract_tag_content response "search"
    if pyTruthy search then some (.search (search.getD ""))
    else if pyContains response "<stop>" && pyContains response "</stop>" then
      some .stop
    else none

/-- `parse_verify_action` of `git_launch/agent/verify.py`: `command` by tag
presence (content up to the closing tag, stripped), else `issue` by tag
presence (content stripped and lowercased), else `None`. -/
def parse_verify_action (response : String) : Option VerifyAction :=
  if pyContains response "<command>" then
    some (.command (pyStrip (pyGet (pySplit (pyGet (pySplit response "<command>") 1) "</command>") 0)))
  else if pyContains response "<issue>" then
    some (.issue (pyLower (pyStrip (pyGet (pySplit (pyGet (pySplit response "<issue>") 1) "</issue>") 0))))
  else none

/-- `observation_for_setup_action` of `launch/agent/setup.py`.  The session
and the search tool are the state's external collaborators, embedded as
functions from dispatched text to observation text (for the search tool, to
the already-serialized `json.dumps` result). -/
def observation_for_setup_action (session searchTool : String → String)
    (action : Option SetupAction) : SetupObservation :=
  match action with
  | none => ⟨setupClarification, false⟩
  | some (.command args) => ⟨session args, false⟩
  | some (.search args) => ⟨searchTool args, false⟩
  | some .stop => ⟨"", true⟩

/-- `observation_for_verify_action` of `git_launch/agent/verify.py`. -/
def observation_for_verify_action (action : Option VerifyAction)
    (session : String → String) : VerifyObservation :=
  match action with
  | none => ⟨verifyClarification⟩
  | some (.command args) => ⟨session args⟩
  | some (.issue args) => if args = "none" then ⟨""⟩ else ⟨args⟩

/-- `SETUP_CONVERSATION_WINDOW` of `launch/agent/setup.py`. -/
def SETUP_CONVERSATION_WINDOW : Nat := 5

/-- `VERIFY_CONVERSATION_WINDOW` of `git_launch/agent/verify.py`. -/
def VERIFY_CONVERSATION_WINDOW : Nat := 10

/-- The `commands_history` message the setup loop builds each iteration
(its f-string interpolates `', '.join(commands)` and the window constant 5). -/
def commands_history_message (commands : List String) : Message :=
  ⟨.user, "\nThe commands you have run:```\n" ++ pyJoin ", " commands
    ++ "```\nFollowing are the last 5 messages:\n"⟩

/-- The prompt the setup loop sends to the oracle: Python
`messages[:p] + [commands_history] + messages[p:]` when
`len(messages) < SETUP_CONVERSATION_WINDOW + p`, else
`messages[:p] + [commands_history] + messages[-SETUP_CONVERSATION_WINDOW:]`. -/
def setup_input_messages (messages : List Message) (p : Nat)
    (commands : List String) : List Message :=
  let ch := commands_history_message commands
  if messages.length < SETUP_CONVERSATION_WINDOW + p then
    messages.take p ++ [ch] ++ messages.drop p
  else
    messages.take p ++ [ch] ++ messages.drop (messages.length - SETUP_CONVERSATION_WINDOW)

/-- The prompt the verify loop sends to the oracle: the whole history when
`len(messages) < VERIFY_CONVERSATION_WINDOW + p`, else
`messages[:p] + messages[-VERIFY_CONVERSATION_WINDOW:]`. -/
def verify_input_messages (messages : List Message) (p : Nat) : List Message :=
  if messages.length < VERIFY_CONVERSATION_WINDOW + p then messages
  else messages.take p ++ messages.drop (messages.length - VERIFY_CONVERSATION_WINDOW)

/-- The mutable locals threaded through a loop iteration:
`messages`, `commands`, `step`. -/
structure LoopState where
  messages : List Message
  commands : List String
  step : Nat
deriving DecidableEq, Repr

/-- The `while step < max_steps` loop of `setup` (`launch/agent/setup.py`).
`oracle` is `llm.invoke` as a function of the prompt; `elapsed n` is
`time.time() - state["start_time"]` observed at the timeout check of the
iteration entered with `step = n`; `p` is `prefix_messages`.  Each iteration:
timeout check, build the windowed prompt, invoke the oracle, append the
reply, parse, record a command, execute the action; on a stop observation
break before appending the observation message, otherwise append it and
continue. -/
def setupLoop (oracle : List Message → String) (session searchTool : String → String)
    (elapsed : Nat → Nat) (p maxSteps : Nat) (st : LoopState) :
    Except PyExc LoopState :=
  if _h : st.step < maxSteps then
    if elapsed st.step > 30 * 60 then
      .error (.timeoutError "Reached global timeout of 30 minutes")
    else
      let inputMessages := setup_input_messages st.messages p st.commands
      let response := oracle inputMessages
      let messages := st.messages ++ [⟨.assistant, response⟩]
      let action := parse_setup_action response
      let commands :=
        match action with
        | some (.command args) => st.commands ++ [args]
        | _ => st.commands
      let observation := observation_for_setup_action session searchTool action
      if observation.is_stop then
        .ok ⟨messages, commands, st.step + 1⟩
      else
        setupLoop oracle session searchTool elapsed p maxSteps
          ⟨messages ++ [⟨.user, "Observation:\n" ++ observation.content⟩],
            commands, st.step + 1⟩
  else .ok st
termination_by maxSteps - st.step
decreasing_by simp_wf; omega

/-- The values the verify loop's locals hold when the loop exits:
`messages`, `commands`, `step`, `success`, `issue`. -/
structure VerifyResult where
  messages : List Message
  commands : List String
  step : Nat
  success : Bool
  issue : Option String
deriving DecidableEq, Repr

/-- The reasoning-model truncation of `verify`
(`git_launch/agent/verify.py`): when the reply contains `<think>`, keep
`response.content.split("</think>")[1]`; Python raises `IndexError` when
that index does not exist. -/
def stripThink (content : String) : Except PyExc String :=
  if pyContains content "<think>" then
    match (pySplit content "</think>").get? 1 with
    | some s => .ok s
    | none => .error (.indexError "list index out of range")
  else .ok content

/-- The `while step < max_steps` loop of `verify`
(`git_launch/agent/verify.py`).  The source loop never reads the wall clock;
the ambient clock is still passed as `elapsed` (unused) so that statements
about elapsed time can be made about both loops uniformly.  Each iteration:
build the windowed prompt, invoke the oracle, truncate the reasoning trace,
append the reply, parse — the source immediately dereferences
`action.action`, so a `None` parse raises `AttributeError` — record a
command, execute, append the observation message, and on an issue action
break with `success`/`issue` set from the observation content. -/
def verifyLoop (oracle : List Message → String) (session : String → String)
    (elapsed : Nat → Nat) (p maxSteps : Nat) (st : LoopState) :
    Except PyExc VerifyResult :=
  if _h : st.step < maxSteps then
    let inputMessages := verify_input_messages st.messages p
    match stripThink (oracle inputMessages) with
    | .error e => .error e
    | .ok response =>
      let messages := st.messages ++ [⟨.assistant, response⟩]
      match parse_verify_action response with
      | none => .error (.attributeError "\x27NoneType\x27 object has no attribute \x27action\x27")
      | some action =>
        let commands :=
          match action with
          | .command args => st.commands ++ [args]
          | _ => st.commands
        let observation := observation_for_verify_action (some action) session
        let messages := messages ++ [⟨.user, "Observation:\n" ++ observation.content⟩]
        match action with
        | .issue _ =>
          if observation.content = "" then
            .ok ⟨messages, commands, st.step + 1, true, none⟩
          else
            .ok ⟨messages, commands, st.step + 1, false, some observation.content⟩
        | .command _ =>
          verifyLoop oracle session elapsed p maxSteps ⟨messages, commands, st.step + 1⟩
  else .ok ⟨st.messages, st.commands, st.step, false, none⟩
termination_by maxSteps - st.step
decreasing_by simp_wf; omega

/-- The fields of the threaded agent state that the embedded stages read as
data (`git_launch/agent/state.py`); the collaborators held in the state
(`llm`, `session`, `search_tool`, `logger`) and the strings interpolated into
the prefix messages are passed as explicit parameters instead. -/
structure AgentState where
  exception : Option PyExc
  verify_messages : List Message
  trials : Nat
deriving DecidableEq, Repr

/-- The dict returned by `setup`. -/
structure SetupUpdate where
  messages : List Message
  setup_messages : List Message
  setup_commands : List String
  commands : List String
deriving DecidableEq, Repr

/-- The dict returned by `verify`. -/
structure VerifyUpdate where
  messages : List Message
  verify_messages : List Message
  test_commands : List String
  commands : List String
  trials : Nat
  success : Bool
  issue : Option String
deriving DecidableEq, Repr

/-- The outcome of a stage wrapped by `auto_catch`: either the stage's
normal update dict, or the dict `{"exception": e}`. -/
inductive Caught (α : Type) where
  | ok (update : α)
  | exception (e : PyExc)
deriving DecidableEq, Repr

/-- `auto_catch` of `git_launch/agent/state.py`: run the stage body; a raised
exception is caught and returned as `{"exception": e}` instead of
propagating. -/
def auto_catch {α : Type} (body : Except PyExc α) : Caught α :=
  match body with
  | .ok u => u |> Caught.ok
  | .error e => Caught.exception e

/-- The body of `setup` (`launch/agent/setup.py`) inside its `auto_catch`
wrapper.  `sysContent` and `instrContent` are the formatted contents of the
two prefix messages (their templates interpolate fields that live outside
`src/`); the initial history is those two messages extended with
`state["verify_messages"]`, and `p = prefix_messages` is its length.  The
body never reads `state["exception"]`. -/
def setupBody (oracle : List Message → String) (session searchTool : String → String)
    (elapsed : Nat → Nat) (sysContent instrContent : String) (maxSteps : Nat)
    (state : AgentState) : Except PyExc SetupUpdate :=
  let messages := [⟨.system, sysContent⟩, ⟨.user, instrContent⟩] ++ state.verify_messages
  let p := messages.length
  (setupLoop oracle session searchTool elapsed p maxSteps ⟨messages, [], 0⟩).map
    (fun r => ⟨r.messages, r.messages.drop p, r.commands, r.commands⟩)

/-- `setup` of `launch/agent/setup.py`: the body under `auto_catch`. -/
def setup (oracle : List Message → String) (session searchTool : String → String)
    (elapsed : Nat → Nat) (sysContent instrContent : String) (maxSteps : Nat)
    (state : AgentState) : Caught SetupUpdate :=
  auto_catch (setupBody oracle session searchTool elapsed sysContent instrContent maxSteps state)

/-- The body of `verify` (`git_launch/agent/verify.py`) inside its
`auto_catch` wrapper: first `if state["exception"]: raise state["exception"]`,
then the two prefix messages (`p = prefix_messages = 2`), the loop, and the
returned dict with `trials` incremented. -/
def verifyBody (oracle : List Message → String) (session : String → String)
    (elapsed : Nat → Nat) (sysContent instrContent : String) (maxSteps : Nat)
    (state : AgentState) : Except PyExc VerifyUpdate :=
  match state.exception with
  | some e => .error e
  | none =>
    let messages : List Message := [⟨.system, sysContent⟩, ⟨.user, instrContent⟩]
    let p := messages.length
    (verifyLoop oracle session elapsed p maxSteps ⟨messages, [], 0⟩).map
      (fun r => ⟨r.messages, r.messages.drop p, r.commands, r.commands,
        state.trials + 1, r.success, r.issue⟩)

/-- `verify` of `git_launch/agent/verify.py`: the body under `auto_catch`. -/
def verify (oracle : List Message → String) (session : String → String)
    (elapsed : Nat → Nat) (sysContent instrContent : String) (maxSteps : Nat)
    (state : AgentState) : Caught VerifyUpdate :=
  auto_catch (verifyBody oracle session elapsed sysContent instrContent maxSteps state)

deriving instance DecidableEq for Except

/-- The observable trace of one `LLMProvider.invoke` call: the number of the
last attempt made, the scheduled sleeps between attempts (in order), and the
final outcome. -/
structure RetryTrace where
  attempts : Nat
  delays : List Nat
  result : Except PyExc String
deriving DecidableEq, Repr

/-- `tenacity.wait_exponential_jitter(initial, max, exp_base, jitter)` as
configured on `LLMProvider.invoke`: after failed attempt number `k` sleep
`min(initial * exp_base ** (k - 1) + uniform(0, jitter), max)`; the random
draw is `jitterDraw k`. -/
def wait_exponential_jitter (initial maxWait expBase : Nat)
    (jitterDraw : Nat → Nat) (attemptNumber : Nat) : Nat :=
  min (initial * expBase ^ (attemptNumber - 1) + jitterDraw attemptNumber) maxWait

/-- Modelled from the spec: the `tenacity` retry driver behind the
`@retry(stop=stop_after_attempt(5), wait=wait_exponential_jitter(initial=5,
max=120, jitter=3))` decorator on `LLMProvider.invoke`
(`git_launch/utilities/llm.py`) — the library itself is not under `src/`.
Attempt `k` calls the underlying model; on success the result is returned,
on failure a sleep of `wait_exponential_jitter 5 120 2 jitterDraw k` is
scheduled and attempt `k + 1` follows, except that after attempt 5 the
failure is raised to the caller. -/
def retryAttempt (call : Nat → Except PyExc String) (jitterDraw : Nat → Nat)
    (k : Nat) : RetryTrace :=
  match call k with
  | .ok v => ⟨k, [], .ok v⟩
  | .error e =>
    if _h : k < 5 then
      let d := wait_exponential_jitter 5 120 2 jitterDraw k
      let t := retryAttempt call jitterDraw (k + 1)
      ⟨t.attempts, d :: t.delays, t.result⟩
    else ⟨k, [], .error e⟩
termination_by 5 - k
decreasing_by simp_wf; omega

/-- `LLMProvider.invoke`: the retried call starting at attempt 1 (the first
attempt is made immediately, with no preceding sleep). -/
def invoke (call : Nat → Except PyExc String) (jitterDraw : Nat → Nat) : RetryTrace :=
  retryAttempt call jitterDraw 1

theorem verifyLoop_issue_step (oracle : List Message → String) (session : String → String)
    (elapsed : Nat → Nat) (p maxSteps : Nat) (st : LoopState) (resp t : String)
    (hstep : st.step < maxSteps)
    (hthink : stripThink (oracle (verify_input_messages st.messages p)) = .ok resp)
    (hparse : parse_verify_action resp = some (.issue t)) :
    verifyLoop oracle session elapsed p maxSteps st =
      .ok ⟨st.messages ++ [⟨.assistant, resp⟩,
            ⟨.user, "Observation:\n" ++ (if t = "none" then "" else t)⟩],
          st.commands, st.step + 1,
          decide ((if t = "none" then "" else t) = ""),
          if (if t = "none" then "" else t) = "" then none
          else some (if t = "none" then "" else t)⟩ := by
  rw [verifyLoop]
  rw [dif_pos hstep]
  simp only [hthink, hparse, observation_for_verify_action]
  by_cases hn : t = "none"
  · simp [hn]
  · by_cases he : t = ""
    · simp [hn, he]
    · simp [hn, he]

theorem setupLoop_not_lt (oracle : List Message → String) (session searchTool : String → String)
    (elapsed : Nat → Nat) (p maxSteps : Nat) (st : LoopState)
    (h : ¬ st.step < maxSteps) :
    setupLoop oracle session searchTool elapsed p maxSteps st = .ok st := by
  rw [setupLoop, dif_neg h]

theorem setupLoop_timeout (oracle : List Message → String) (session searchTool : String → String)
    (elapsed : Nat → Nat) (p maxSteps : Nat) (st : LoopState)
    (hstep : st.step < maxSteps) (ht : elapsed st.step > 30 * 60) :
    setupLoop oracle session searchTool elapsed p maxSteps st =
      .error (.timeoutError "Reached global timeout of 30 minutes") := by
  rw [setupLoop, dif_pos hstep, if_pos ht]

theorem setupLoop_stop_step (oracle : List Message → String) (session searchTool : String → String)
    (elapsed : Nat → Nat) (p maxSteps : Nat) (st : LoopState)
    (hstep : st.step < maxSteps) (ht : ¬ elapsed st.step > 30 * 60)
    (hparse : parse_setup_action (oracle (setup_input_messages st.messages p st.commands)) = some .stop) :
    setupLoop oracle session searchTool elapsed p maxSteps st =
      .ok ⟨st.messages ++ [⟨.assistant, oracle (setup_input_messages st.messages p st.commands)⟩],
        st.commands, st.step + 1⟩ := by
  conv_lhs => rw [setupLoop]
  rw [dif_pos hstep, if_neg ht]
  simp only [hparse, observation_for_setup_action]
  simp

theorem setupLoop_continue_step (oracle : List Message → String) (session searchTool : String → String)
    (elapsed : Nat → Nat) (p maxSteps : Nat) (st : LoopState)
    (hstep : st.step < maxSteps) (ht : ¬ elapsed st.step > 30 * 60)
    (hns : (observation_for_setup_action session searchTool
        (parse_setup_action (oracle (setup_input_messages st.messages p st.commands)))).is_stop = false) :
    setupLoop oracle session searchTool elapsed p maxSteps st =
      setupLoop oracle session searchTool elapsed p maxSteps
        ⟨st.messages ++ [⟨.assistant, oracle (setup_input_messages st.messages p st.commands)⟩,
            ⟨.user, "Observation:\n" ++ (observation_for_setup_action session searchTool
              (parse_setup_action (oracle (setup_input_messages st.messages p st.commands)))).content⟩],
          (match parse_setup_action (oracle (setup_input_messages st.messages p st.commands)) with
            | some (.command args) => st.commands ++ [args]
            | _ => st.commands),
          st.step + 1⟩ := by
  conv_lhs => rw [setupLoop]
  rw [dif_pos hstep, if_neg ht]
  simp only [hns, Bool.false_eq_true, if_false]
  simp

theorem verifyLoop_not_lt (oracle : List Message → String) (session : String → String)
    (elapsed : Nat → Nat) (p maxSteps : Nat) (st : LoopState)
    (h : ¬ st.step < maxSteps) :
    verifyLoop oracle session elapsed p maxSteps st =
      .ok ⟨st.messages, st.commands, st.step, false, none⟩ := by
  rw [verifyLoop, dif_neg h]

theorem verifyLoop_think_error (oracle : List Message → String) (session : String → String)
    (elapsed : Nat → Nat) (p maxSteps : Nat) (st : LoopState) (e : PyExc)
    (hstep : st.step < maxSteps)
    (hthink : stripThink (oracle (verify_input_messages st.messages p)) = .error e) :
    verifyLoop oracle session elapsed p maxSteps st = .error e := by
  rw [verifyLoop, dif_pos hstep]
  simp only [hthink]

theorem verifyLoop_unparseable (oracle : List Message → String) (session : String → String)
    (elapsed : Nat → Nat) (p maxSteps : Nat) (st : LoopState) (resp : String)
    (hstep : st.step < maxSteps)
    (hthink : stripThink (oracle (verify_input_messages st.messages p)) = .ok resp)
    (hparse : parse_verify_action resp = none) :
    verifyLoop oracle session elapsed p maxSteps st =
      .error (.attributeError "\x27NoneType\x27 object has no attribute \x27action\x27") := by
  rw [verifyLoop, dif_pos hstep]
  simp only [hthink, hparse]

theorem verifyLoop_command_step (oracle : List Message → String) (session : String → String)
    (elapsed : Nat → Nat) (p maxSteps : Nat) (st : LoopState) (resp c : String)
    (hstep : st.step < maxSteps)
    (hthink : stripThink (oracle (verify_input_messages st.messages p)) = .ok resp)
    (hparse : parse_verify_action resp = some (.command c)) :
    verifyLoop oracle session elapsed p maxSteps st =
      verifyLoop oracle session elapsed p maxSteps
        ⟨st.messages ++ [⟨.assistant, resp⟩, ⟨.user, "Observation:\n" ++ session c⟩],
          st.commands ++ [c], st.step + 1⟩ := by
  conv_lhs => rw [verifyLoop]
  rw [dif_pos hstep]
  simp only [hthink, hparse, observation_for_verify_action]
  simp

theorem setupLoop_ok_step_le (oracle : List Message → String) (session searchTool : String → String)
    (elapsed : Nat → Nat) (p maxSteps : Nat) :
    ∀ n st r, maxSteps - st.step ≤ n →
      setupLoop oracle session searchTool elapsed p maxSteps st = .ok r →
      st.step ≤ maxSteps → r.step ≤ maxSteps := by
  intro n
  induction n with
  | zero =>
    intro st r hn heq hle
    have hge : ¬ st.step < maxSteps := by omega
    rw [setupLoop_not_lt _ _ _ _ _ _ _ hge] at heq
    injection heq with h2
    subst h2
    exact hle
  | succ n ih =>
    intro st r hn heq hle
    by_cases h : st.step < maxSteps
    · by_cases ht : elapsed st.step > 30 * 60
      · rw [setupLoop_timeout _ _ _ _ _ _ _ h ht] at heq
        cases heq
      · by_cases hs : (observation_for_setup_action session searchTool
            (parse_setup_action (oracle (setup_input_messages st.messages p st.commands)))).is_stop
        · rcases hA : parse_setup_action (oracle (setup_input_messages st.messages p st.commands))
            with _ | a
          · rw [hA] at hs; simp [observation_for_setup_action] at hs
          · cases a with
            | command args => rw [hA] at hs; simp [observation_for_setup_action] at hs
            | search args => rw [hA] at hs; simp [observation_for_setup_action] at hs
            | stop =>
              rw [setupLoop_stop_step _ _ _ _ _ _ _ h ht hA] at heq
              injection heq with h2
              subst h2
              exact h
        · rw [setupLoop_continue_step _ _ _ _ _ _ _ h ht (by simpa using hs)] at heq
          exact ih _ r (by show maxSteps - (st.step + 1) ≤ n; omega) heq
            (by show st.step + 1 ≤ maxSteps; omega)
    · rw [setupLoop_not_lt _ _ _ _ _ _ _ h] at heq
      injection heq with h2
      subst h2
      exact hle

theorem verifyLoop_ok_step_le (oracle : List Message → String) (session : String → String)
    (elapsed : Nat → Nat) (p maxSteps : Nat) :
    ∀ n st r, maxSteps - st.step ≤ n →
      verifyLoop oracle session elapsed p maxSteps st = .ok r →
      st.step ≤ maxSteps → r.step ≤ maxSteps := by
  intro n
  induction n with
  | zero =>
    intro st r hn heq hle
    have hge : ¬ st.step < maxSteps := by omega
    rw [verifyLoop_not_lt _ _ _ _ _ _ hge] at heq
    injection heq with h2
    subst h2
    exact hle
  | succ n ih =>
    intro st r hn heq hle
    by_cases h : st.step < maxSteps
    · rcases hT : stripThink (oracle (verify_input_messages st.messages p)) with e | resp
      · rw [verifyLoop_think_error _ _ _ _ _ _ _ h hT] at heq
        cases heq
      · rcases hA : parse_verify_action resp with _ | a
        · rw [verifyLoop_unparseable _ _ _ _ _ _ _ h hT hA] at heq
          cases heq
        · cases a with
          | command c =>
            rw [verifyLoop_command_step _ _ _ _ _ _ _ _ h hT hA] at heq
            exact ih _ r (by show maxSteps - (st.step + 1) ≤ n; omega) heq
              (by show st.step + 1 ≤ maxSteps; omega)
          | issue t =>
            rw [verifyLoop_issue_step _ _ _ _ _ _ _ _ h hT hA] at heq
            injection heq with h2
            subst h2
            exact h
    · rw [verifyLoop_not_lt _ _ _ _ _ _ h] at heq
      injection heq with h2
      subst h2
      exact hle

theorem retryAttempt_spec (call : Nat → Except PyExc String) (jitterDraw : Nat → Nat) :
    ∀ n k, 5 - k ≤ n →
      k ≤ (retryAttempt call jitterDraw k).attempts ∧
      (retryAttempt call jitterDraw k).attempts ≤ max 5 k ∧
      (retryAttempt call jitterDraw k).delays.length =
        (retryAttempt call jitterDraw k).attempts - k ∧
      (∀ i, i < (retryAttempt call jitterDraw k).delays.length →
        (retryAttempt call jitterDraw k).delays.getD i 0 =
          wait_exponential_jitter 5 120 2 jitterDraw (k + i)) := by
  intro n
  induction n with
  | zero =>
    intro k hk
    have h5 : ¬ k < 5 := by omega
    rcases hc : call k with e | v
    · rw [retryAttempt]
      simp only [hc, dif_neg h5]
      exact ⟨le_rfl, le_max_right _ _, by simp, by simp⟩
    · rw [retryAttempt]
      simp only [hc]
      exact ⟨le_rfl, le_max_right _ _, by simp, by simp⟩
  | succ n ih =>
    intro k hk
    rcases hc : call k with e | v
    · by_cases h5 : k < 5
      · obtain ⟨h1, h2, h3, h4⟩ := ih (k + 1) (by omega)
        rw [retryAttempt]
        simp only [hc, dif_pos h5]
        refine ⟨by omega, ?_, ?_, ?_⟩
        · have hm : max 5 (k + 1) = 5 := Nat.max_eq_left (by omega)
          rw [hm] at h2
          exact le_trans h2 (le_max_left _ _)
        · simp only [List.length_cons, h3]
          omega
        · intro i hi
          cases i with
          | zero =>
            simp [wait_exponential_jitter]
          | succ j =>
            have hj : j < (retryAttempt call jitterDraw (k + 1)).delays.length := by
              simpa using hi
            have hg := h4 j hj
            have harg : k + 1 + j = k + (j + 1) := by omega
            rw [harg] at hg
            simpa using hg
      · rw [retryAttempt]
        simp only [hc, dif_neg h5]
        exact ⟨le_rfl, le_max_right _ _, by simp, by simp⟩
    · rw [retryAttempt]
      simp only [hc]
      exact ⟨le_rfl, le_max_right _ _, by simp, by simp⟩

/-- C9: an oracle invocation makes at most 5 attempts in total before the
failure is raised to the caller; the first attempt is not delayed (there are
attempts − 1 scheduled sleeps, all between attempts), and the sleep scheduled
after failed attempt i + 1 is min(5·2^i + jitter draw, 120): exponential
backoff with initial delay 5, cap 120 and the jitter draw (uniform in [0, 3]
in the source configuration). -/
theorem C9_retry_bound (call : Nat → Except PyExc String) (jitterDraw : Nat → Nat) :
    1 ≤ (invoke call jitterDraw).attempts ∧
    (invoke call jitterDraw).attempts ≤ 5 ∧
    (invoke call jitterDraw).delays.length = (invoke call jitterDraw).attempts - 1 ∧
    (∀ i, i < (invoke call jitterDraw).delays.length →
      (invoke call jitterDraw).delays.getD i 0 =
        min (5 * 2 ^ i + jitterDraw (i + 1)) 120) := by
  obtain ⟨h1, h2, h3, h4⟩ := retryAttempt_spec call jitterDraw 4 1 (by omega)
  simp only [invoke]
  refine ⟨h1, by simpa using h2, h3, ?_⟩
  intro i hi
  have hg := h4 i hi
  simpa [wait_exponential_jitter, Nat.add_comm] using hg

theorem C9_retry_bound_witness :
    (invoke (fun _ => .error (.other "rate limit")) (fun _ => 1)).attempts ≤ 5 ∧
    (invoke (fun _ => .error (.other "rate limit")) (fun _ => 1)).delays.getD 0 0 =
      min (5 * 2 ^ 0 + 1) 120 := by
  refine ⟨(C9_retry_bound (fun _ => .error (.other "rate limit")) (fun _ => 1)).2.1, ?_⟩
  exact (C9_retry_bound (fun _ => .error (.other "rate limit")) (fun _ => 1)).2.2.2 0
    (by simp +decide [invoke, retryAttempt])

/-- C5: the prompt either loop sends to the oracle always contains the full
instructional prefix (the first p history entries, p being the number of
messages built before the loop starts), and the trailing portion taken from
the post-prefix history has at most W entries, W = 5 for the setup loop and
W = 10 for the verify loop. -/
theorem C5_window_bound (messages : List Message) (p : Nat) (commands : List String)
    (hp : p ≤ messages.length) :
    (setup_input_messages messages p commands =
        messages.take p ++ [commands_history_message commands]
          ++ (setup_input_messages messages p commands).drop (p + 1) ∧
      ((setup_input_messages messages p commands).drop (p + 1)).length
          ≤ SETUP_CONVERSATION_WINDOW ∧
      ((setup_input_messages messages p commands).drop (p + 1)).IsSuffix messages) ∧
    (verify_input_messages messages p =
        messages.take p ++ (verify_input_messages messages p).drop p ∧
      ((verify_input_messages messages p).drop p).length ≤ VERIFY_CONVERSATION_WINDOW ∧
      ((verify_input_messages messages p).drop p).IsSuffix messages) ∧
    (messages.take p).length = p := by
  have hlen : (messages.take p ++ [commands_history_message commands]).length = p + 1 := by
    simp [List.length_take, Nat.min_eq_left hp]
  refine ⟨?_, ?_, by simpa using hp⟩
  · by_cases h : messages.length < SETUP_CONVERSATION_WINDOW + p
    · have h' : messages.length < 5 + p := h
      have hout : setup_input_messages messages p commands =
          messages.take p ++ [commands_history_message commands] ++ messages.drop p := by
        simp only [setup_input_messages]
        rw [if_pos h]
      have htail : (setup_input_messages messages p commands).drop (p + 1) =
          messages.drop p := by
        rw [hout, List.drop_left' hlen]
      refine ⟨by rw [htail, hout], ?_, ?_⟩
      · rw [htail]
        simp only [List.length_drop, SETUP_CONVERSATION_WINDOW]
        omega
      · rw [htail]
        exact List.drop_suffix _ _
    · have h' : ¬ messages.length < 5 + p := h
      have hout : setup_input_messages messages p commands =
          messages.take p ++ [commands_history_message commands]
            ++ messages.drop (messages.length - SETUP_CONVERSATION_WINDOW) := by
        simp only [setup_input_messages]
        rw [if_neg h]
      have htail : (setup_input_messages messages p commands).drop (p + 1) =
          messages.drop (messages.length - SETUP_CONVERSATION_WINDOW) := by
        rw [hout, List.drop_left' hlen]
      refine ⟨by rw [htail, hout], ?_, ?_⟩
      · rw [htail]
        simp only [List.length_drop, SETUP_CONVERSATION_WINDOW]
        omega
      · rw [htail]
        exact List.drop_suffix _ _
  · by_cases h : messages.length < VERIFY_CONVERSATION_WINDOW + p
    · have h' : messages.length < 10 + p := h
      have hout : verify_input_messages messages p = messages := by
        simp only [verify_input_messages]
        rw [if_pos h]
      have htail : (verify_input_messages messages p).drop p = messages.drop p := by
        rw [hout]
      refine ⟨?_, ?_, ?_⟩
      · rw [htail, hout]
        exact (List.take_append_drop p messages).symm
      · rw [htail]
        simp only [List.length_drop, VERIFY_CONVERSATION_WINDOW]
        omega
      · rw [htail]
        exact List.drop_suffix _ _
    · have h' : ¬ messages.length < 10 + p := h
      have hlen2 : (messages.take p).length = p := by simpa using hp
      have hout : verify_input_messages messages p =
          messages.take p ++ messages.drop (messages.length - VERIFY_CONVERSATION_WINDOW) := by
        simp only [verify_input_messages]
        rw [if_neg h]
      have htail : (verify_input_messages messages p).drop p =
          messages.drop (messages.length - VERIFY_CONVERSATION_WINDOW) := by
        rw [hout, List.drop_left' hlen2]
      refine ⟨by rw [htail, hout], ?_, ?_⟩
      · rw [htail]
        simp only [List.length_drop, VERIFY_CONVERSATION_WINDOW]
        omega
      · rw [htail]
        exact List.drop_suffix _ _

theorem C5_window_bound_witness :
    (setup_input_messages [⟨.system, "s"⟩, ⟨.user, "i"⟩, ⟨.assistant, "a"⟩] 2 ["ls"] =
        ([⟨.system, "s"⟩, ⟨.user, "i"⟩, ⟨.assistant, "a"⟩] : List Message).take 2
          ++ [commands_history_message ["ls"]]
          ++ (setup_input_messages [⟨.system, "s"⟩, ⟨.user, "i"⟩, ⟨.assistant, "a"⟩] 2 ["ls"]).drop (2 + 1) ∧
      ((setup_input_messages [⟨.system, "s"⟩, ⟨.user, "i"⟩, ⟨.assistant, "a"⟩] 2 ["ls"]).drop (2 + 1)).length
          ≤ SETUP_CONVERSATION_WINDOW ∧
      ((setup_input_messages [⟨.system, "s"⟩, ⟨.user, "i"⟩, ⟨.assistant, "a"⟩] 2 ["ls"]).drop (2 + 1)).IsSuffix
        [⟨.system, "s"⟩, ⟨.user, "i"⟩, ⟨.assistant, "a"⟩] ∧
      True) ∧
    (([⟨.system, "s"⟩, ⟨.user, "i"⟩, ⟨.assistant, "a"⟩] : List Message).take 2).length = 2 := by
  have h := C5_window_bound [⟨.system, "s"⟩, ⟨.user, "i"⟩, ⟨.assistant, "a"⟩] 2 ["ls"] (by decide)
  exact ⟨⟨h.1.1, h.1.2.1, h.1.2.2, trivial⟩, h.2.2⟩

/-- C1 (amended): in the verify loop, a reply that parses to an Issue action
terminates the loop on that step; when the stripped, lowercased issue text
equals the sentinel "none" or is empty, the loop returns success flag true
and a null issue, and for any other issue text it returns success flag false
with that text as the reported issue. -/
theorem C1_verify_issue_terminal (oracle : List Message → String) (session : String → String)
    (elapsed : Nat → Nat) (p maxSteps : Nat) (st : LoopState) (resp t : String)
    (hstep : st.step < maxSteps)
    (hthink : stripThink (oracle (verify_input_messages st.messages p)) = .ok resp)
    (hparse : parse_verify_action resp = some (.issue t)) :
    verifyLoop oracle session elapsed p maxSteps st =
      .ok ⟨st.messages ++ [⟨.assistant, resp⟩,
          ⟨.user, "Observation:\n" ++ (if t = "none" then "" else t)⟩],
        st.commands, st.step + 1,
        (if t = "none" ∨ t = "" then true else false),
        (if t = "none" ∨ t = "" then none else some t)⟩ := by
  rw [verifyLoop_issue_step oracle session elapsed p maxSteps st resp t hstep hthink hparse]
  by_cases hn : t = "none"
  · simp [hn]
  · by_cases he : t = ""
    · simp [hn, he]
    · simp [hn, he]

theorem C1_verify_issue_terminal_witness :
    verifyLoop (fun _ => "<issue>none</issue>") (fun _ => "out") (fun _ => 0) 2 5
        ⟨[⟨.system, "s"⟩, ⟨.user, "i"⟩], [], 0⟩ =
      .ok ⟨[⟨.system, "s"⟩, ⟨.user, "i"⟩] ++ [⟨.assistant, "<issue>none</issue>"⟩,
          ⟨.user, "Observation:\n" ++ (if "none" = "none" then "" else "none")⟩],
        [], 0 + 1,
        (if "none" = "none" ∨ "none" = "" then true else false),
        (if "none" = "none" ∨ "none" = "" then none else some "none")⟩ :=
  C1_verify_issue_terminal (fun _ => "<issue>none</issue>") (fun _ => "out") (fun _ => 0) 2 5
    ⟨[⟨.system, "s"⟩, ⟨.user, "i"⟩], [], 0⟩ "<issue>none</issue>" "none"
    (by decide) (by decide) (by decide)

/-- C1 counterexample: the reply `<issue></issue>` parses to an Issue action
whose issue text "" differs from the sentinel "none", yet the verify loop
returns success flag true and a null issue instead of failure with "". -/
theorem C1_empty_issue_counterexample :
    (verifyLoop (fun _ => "<issue></issue>") (fun _ => "out") (fun _ => 0) 2 5
        ⟨[⟨.system, "s"⟩, ⟨.user, "i"⟩], [], 0⟩).map (fun r => (r.success, r.issue))
      = .ok (true, none) ∧
    parse_verify_action "<issue></issue>" = some (.issue "") ∧ "" ≠ "none" :=
  ⟨by simp +decide [verifyLoop], by decide, by decide⟩

/-- C2: the step counter of either loop never passes the configured maximum
(each iteration increments it exactly once, so the loops never execute more
than maxSteps iterations); and with step budget 3 and an oracle that always
replies with a valid command action, the setup loop ends normally at step 3
with exactly the 3 recorded commands and no exception. -/
theorem C2_step_budget :
    (∀ (oracle : List Message → String) (session searchTool : String → String)
        (elapsed : Nat → Nat) (p maxSteps : Nat) (st r : LoopState),
        setupLoop oracle session searchTool elapsed p maxSteps st = .ok r →
        st.step ≤ maxSteps → r.step ≤ maxSteps) ∧
    (∀ (oracle : List Message → String) (session : String → String)
        (elapsed : Nat → Nat) (p maxSteps : Nat) (st : LoopState) (r : VerifyResult),
        verifyLoop oracle session elapsed p maxSteps st = .ok r →
        st.step ≤ maxSteps → r.step ≤ maxSteps) ∧
    (setupLoop (fun _ => "<command>ls</command>") (fun _ => "out") (fun _ => "res")
        (fun _ => 0) 2 3 ⟨[⟨.system, "s"⟩, ⟨.user, "i"⟩], [], 0⟩).map
      (fun r => (r.commands, r.step)) = .ok (["ls", "ls", "ls"], 3) := by
  refine ⟨?_, ?_, by simp +decide [setupLoop]⟩
  · intro oracle session searchTool elapsed p maxSteps st r heq hle
    exact setupLoop_ok_step_le oracle session searchTool elapsed p maxSteps
      (maxSteps - st.step) st r le_rfl heq hle
  · intro oracle session elapsed p maxSteps st r heq hle
    exact verifyLoop_ok_step_le oracle session elapsed p maxSteps
      (maxSteps - st.step) st r le_rfl heq hle

theorem C2_step_budget_witness :
    (⟨[⟨.system, "s"⟩, ⟨.user, "i"⟩, ⟨.assistant, "<stop></stop>"⟩], [], 1⟩ : LoopState).step ≤ 1 :=
  C2_step_budget.1 (fun _ => "<stop></stop>") (fun _ => "out") (fun _ => "res") (fun _ => 0) 2 1
    ⟨[⟨.system, "s"⟩, ⟨.user, "i"⟩], [], 0⟩
    ⟨[⟨.system, "s"⟩, ⟨.user, "i"⟩, ⟨.assistant, "<stop></stop>"⟩], [], 1⟩
    (by simp +decide [setupLoop]) (by decide)

/-- C3 (amended): in every iteration of the setup loop, when the wall-clock
time elapsed since the loop start exceeds the fixed 30-minute budget, a
TimeoutError is raised before the oracle is invoked — the conclusion holds
for every oracle, even with zero steps executed; the verify loop performs no
wall-clock check at all and invokes the oracle regardless of elapsed time. -/
theorem C3_setup_timeout_precedes_oracle (oracle : List Message → String)
    (session searchTool : String → String) (elapsed : Nat → Nat) (p maxSteps : Nat)
    (st : LoopState) (hstep : st.step < maxSteps) (ht : elapsed st.step > 30 * 60) :
    setupLoop oracle session searchTool elapsed p maxSteps st =
      .error (.timeoutError "Reached global timeout of 30 minutes") :=
  setupLoop_timeout oracle session searchTool elapsed p maxSteps st hstep ht

theorem C3_setup_timeout_precedes_oracle_witness :
    setupLoop (fun _ => "<command>ls</command>") (fun _ => "out") (fun _ => "res")
        (fun _ => 2000) 2 3 ⟨[⟨.system, "s"⟩, ⟨.user, "i"⟩], [], 0⟩ =
      .error (.timeoutError "Reached global timeout of 30 minutes") :=
  C3_setup_timeout_precedes_oracle (fun _ => "<command>ls</command>") (fun _ => "out")
    (fun _ => "res") (fun _ => 2000) 2 3 ⟨[⟨.system, "s"⟩, ⟨.user, "i"⟩], [], 0⟩
    (by decide) (by decide)

/-- C3 counterexample: with the ambient wall clock reading 1000000 s elapsed
(far past the 30-minute budget) at every instant, the verify loop still
invokes the oracle — the recorded command "ls" comes from the oracle reply —
and terminates normally on the step budget instead of raising TimeoutError
before the call. -/
theorem C3_verify_no_timeout_counterexample :
    (verifyLoop (fun _ => "<command>ls</command>") (fun _ => "out") (fun _ => 1000000) 2 1
        ⟨[⟨.system, "s"⟩, ⟨.user, "i"⟩], [], 0⟩).map (fun r => (r.commands, r.step))
      = .ok (["ls"], 1) ∧ 1000000 > 30 * 60 :=
  ⟨by simp +decide [verifyLoop], by norm_num⟩

set_option maxRecDepth 16384

/-- C4: on an oracle reply with no recognized action tag, the setup loop does
not terminate — it appends the clarification observation to history, consumes
exactly one step, and re-invokes the oracle on the next iteration (here: an
unparseable reply on step 1, `<stop></stop>` on step 2, ending at step 2 with
history message 3 being the clarification); the verify loop instead raises
AttributeError when dereferencing the unparsed None action, so its own
clarification branch in observation_for_verify_action is unreachable. -/
theorem C4_unparseable_evaluation :
    (setupLoop (fun ms => if ms.length < 4 then "I am not sure yet." else "<stop></stop>")
        (fun _ => "out") (fun _ => "res") (fun _ => 0) 2 3
        ⟨[⟨.system, "s"⟩, ⟨.user, "i"⟩], [], 0⟩).map
      (fun r => (r.step, r.commands, r.messages.length,
        (r.messages.getD 3 ⟨.user, ""⟩).content)) =
      .ok (2, [], 5, "Observation:\n" ++ setupClarification) ∧
    verifyLoop (fun _ => "I am not sure yet.") (fun _ => "out") (fun _ => 0) 2 5
        ⟨[⟨.system, "s"⟩, ⟨.user, "i"⟩], [], 0⟩ =
      .error (.attributeError "\x27NoneType\x27 object has no attribute \x27action\x27") := by
  constructor
  · simp +decide [setupLoop, setupClarification, setupActionDoc]
  · simp +decide [verifyLoop]

/-- C6 (amended): the parser resolves replies carrying several action tags by
the fixed priority command > search > stop (setup grammar) and
command > issue (verify grammar), except that a setup command or search
variant only matches when its extracted tag content is non-empty: a reply
containing a command tag with non-empty content together with a stop tag
parses as Command, while a command tag with empty content is skipped. -/
theorem C6_parser_priority (response c q : String) :
    (extract_tag_content (clean_response response) "command" = some c → c ≠ "" →
      parse_setup_action response = some (.command c)) ∧
    (pyTruthy (extract_tag_content (clean_response response) "command") = false →
      extract_tag_content (clean_response response) "search" = some q → q ≠ "" →
      parse_setup_action response = some (.search q)) ∧
    (pyTruthy (extract_tag_content (clean_response response) "command") = false →
      pyTruthy (extract_tag_content (clean_response response) "search") = false →
      pyContains (clean_response response) "<stop>" = true →
      pyContains (clean_response response) "</stop>" = true →
      parse_setup_action response = some .stop) ∧
    (pyContains response "<command>" = true →
      parse_verify_action response =
        some (.command (pyStrip (pyGet (pySplit (pyGet (pySplit response "<command>") 1)
          "</command>") 0)))) := by
  refine ⟨?_, ?_, ?_, ?_⟩
  · intro hc hne
    simp [parse_setup_action, hc, pyTruthy, hne]
  · intro hcf hs hq
    rcases hC : extract_tag_content (clean_response response) "command" with _ | c2
    · simp [parse_setup_action, hC, pyTruthy, hs, hq]
    · rw [hC] at hcf
      have hc2 : c2 = "" := by simpa [pyTruthy] using hcf
      subst hc2
      simp [parse_setup_action, hC, pyTruthy, hs, hq]
  · intro hcf hsf h1 h2
    rcases hC : extract_tag_content (clean_response response) "command" with _ | c2
    · rcases hS : extract_tag_content (clean_response response) "search" with _ | s2
      · simp [parse_setup_action, hC, hS, pyTruthy, h1, h2]
      · rw [hS] at hsf
        have hs2 : s2 = "" := by simpa [pyTruthy] using hsf
        subst hs2
        simp [parse_setup_action, hC, hS, pyTruthy, h1, h2]
    · rw [hC] at hcf
      have hc2 : c2 = "" := by simpa [pyTruthy] using hcf
      subst hc2
      rcases hS : extract_tag_content (clean_response response) "search" with _ | s2
      · simp [parse_setup_action, hC, hS, pyTruthy, h1, h2]
      · rw [hS] at hsf
        have hs2 : s2 = "" := by simpa [pyTruthy] using hsf
        subst hs2
        simp [parse_setup_action, hC, hS, pyTruthy, h1, h2]
  · intro hc
    simp [parse_verify_action, hc]

theorem C6_parser_priority_witness :
    parse_setup_action "<command>ls</command><stop></stop>" = some (.command "ls") :=
  (C6_parser_priority "<command>ls</command><stop></stop>" "ls" "q").1 (by decide) (by decide)

/-- C6 counterexample: the reply `<command></command><stop></stop>` contains
both a command tag and a stop tag, yet it parses as Stop, not Command — the
empty command content is falsy and the parser falls through. -/
theorem C6_empty_command_counterexample :
    parse_setup_action "<command></command><stop></stop>" = some .stop ∧
    pyContains "<command></command><stop></stop>" "<command>" = true ∧
    pyContains "<command></command><stop></stop>" "<stop>" = true :=
  ⟨by decide, by decide, by decide⟩

/-- C7 (amended): in the verify loop, both the oracle reply and the
observation are appended to history before the terminal issue condition is
evaluated; in the setup loop the reply is appended, but on a terminal Stop
action the loop breaks before appending the observation message, so the
final history ends with the reply alone. -/
theorem C7_append_order
    (oracle oracle2 : List Message → String) (session session2 searchTool : String → String)
    (elapsed elapsed2 : Nat → Nat) (p p2 maxSteps maxSteps2 : Nat) (st st2 : LoopState)
    (resp t : String)
    (hstep : st.step < maxSteps)
    (hthink : stripThink (oracle (verify_input_messages st.messages p)) = .ok resp)
    (hparse : parse_verify_action resp = some (.issue t))
    (hstep2 : st2.step < maxSteps2)
    (ht2 : ¬ elapsed2 st2.step > 30 * 60)
    (hparse2 : parse_setup_action (oracle2 (setup_input_messages st2.messages p2 st2.commands))
      = some .stop) :
    verifyLoop oracle session elapsed p maxSteps st =
      .ok ⟨st.messages ++ [⟨.assistant, resp⟩,
          ⟨.user, "Observation:\n" ++ (if t = "none" then "" else t)⟩],
        st.commands, st.step + 1,
        decide ((if t = "none" then "" else t) = ""),
        if (if t = "none" then "" else t) = "" then none
        else some (if t = "none" then "" else t)⟩ ∧
    setupLoop oracle2 session2 searchTool elapsed2 p2 maxSteps2 st2 =
      .ok ⟨st2.messages ++ [⟨.assistant, oracle2 (setup_input_messages st2.messages p2 st2.commands)⟩],
        st2.commands, st2.step + 1⟩ :=
  ⟨verifyLoop_issue_step oracle session elapsed p maxSteps st resp t hstep hthink hparse,
   setupLoop_stop_step oracle2 session2 searchTool elapsed2 p2 maxSteps2 st2 hstep2 ht2 hparse2⟩

theorem C7_append_order_witness :
    verifyLoop (fun _ => "<issue>bad</issue>") (fun _ => "out") (fun _ => 0) 2 5
        ⟨[⟨.system, "s"⟩, ⟨.user, "i"⟩], [], 0⟩ =
      .ok ⟨[⟨.system, "s"⟩, ⟨.user, "i"⟩] ++ [⟨.assistant, "<issue>bad</issue>"⟩,
          ⟨.user, "Observation:\n" ++ (if "bad" = "none" then "" else "bad")⟩],
        [], 0 + 1,
        decide ((if "bad" = "none" then "" else "bad") = ""),
        if (if "bad" = "none" then "" else "bad") = "" then none
        else some (if "bad" = "none" then "" else "bad")⟩ ∧
    setupLoop (fun _ => "<stop></stop>") (fun _ => "out2") (fun _ => "res") (fun _ => 7) 2 4
        ⟨[⟨.system, "s2"⟩, ⟨.user, "i2"⟩], [], 0⟩ =
      .ok ⟨[⟨.system, "s2"⟩, ⟨.user, "i2"⟩] ++ [⟨.assistant,
          (fun _ => "<stop></stop>") (setup_input_messages [⟨.system, "s2"⟩, ⟨.user, "i2"⟩] 2 [])⟩],
        [], 0 + 1⟩ :=
  C7_append_order (fun _ => "<issue>bad</issue>") (fun _ => "<stop></stop>")
    (fun _ => "out") (fun _ => "out2") (fun _ => "res") (fun _ => 0) (fun _ => 7)
    2 2 5 4 ⟨[⟨.system, "s"⟩, ⟨.user, "i"⟩], [], 0⟩ ⟨[⟨.system, "s2"⟩, ⟨.user, "i2"⟩], [], 0⟩
    "<issue>bad</issue>" "bad"
    (by decide) (by decide) (by decide) (by decide) (by decide) (by decide)

/-- C7 counterexample: a setup run that receives `<stop></stop>` ends with a
history of exactly the two prefix messages plus the reply — the observation
of the terminal Stop action is never appended before the loop stops. -/
theorem C7_setup_stop_counterexample :
    (setupLoop (fun _ => "<stop></stop>") (fun _ => "out") (fun _ => "res") (fun _ => 0) 2 1
        ⟨[⟨.system, "s"⟩, ⟨.user, "i"⟩], [], 0⟩).map (fun r => r.messages)
      = .ok [⟨.system, "s"⟩, ⟨.user, "i"⟩, ⟨.assistant, "<stop></stop>"⟩] := by
  simp +decide [setupLoop]

/-- C8 (amended): the verify stage checks at entry whether an exception is
already captured in the agent state and re-raises it immediately (auto_catch
then returns it as the stage outcome); the setup stage performs no such
entry check.  Every exception raised inside a stage body wrapped by
auto_catch is captured into the returned exception outcome rather than
propagating as an uncaught crash. -/
theorem C8_exception_capture :
    (∀ (oracle : List Message → String) (session : String → String) (elapsed : Nat → Nat)
        (sysContent instrContent : String) (maxSteps : Nat) (state : AgentState) (e : PyExc),
        state.exception = some e →
        verify oracle session elapsed sysContent instrContent maxSteps state = .exception e) ∧
    (∀ (oracle : List Message → String) (session : String → String) (elapsed : Nat → Nat)
        (sysContent instrContent : String) (maxSteps : Nat) (state : AgentState) (e : PyExc),
        verifyBody oracle session elapsed sysContent instrContent maxSteps state = .error e →
        verify oracle session elapsed sysContent instrContent maxSteps state = .exception e) ∧
    (∀ (oracle : List Message → String) (session searchTool : String → String)
        (elapsed : Nat → Nat) (sysContent instrContent : String) (maxSteps : Nat)
        (state : AgentState) (e : PyExc),
        setupBody oracle session searchTool elapsed sysContent instrContent maxSteps state
          = .error e →
        setup oracle session searchTool elapsed sysContent instrContent maxSteps state
          = .exception e) := by
  refine ⟨?_, ?_, ?_⟩
  · intro oracle session elapsed sysContent instrContent maxSteps state e hexc
    rw [verify, verifyBody, hexc]
    rfl
  · intro oracle session elapsed sysContent instrContent maxSteps state e hbody
    rw [verify, hbody]
    rfl
  · intro oracle session searchTool elapsed sysContent instrContent maxSteps state e hbody
    rw [setup, hbody]
    rfl

theorem C8_exception_capture_witness :
    verify (fun _ => "<issue>none</issue>") (fun _ => "out") (fun _ => 0) "s" "i" 5
        ⟨some (.other "boom"), [], 0⟩ = .exception (.other "boom") :=
  C8_exception_capture.1 (fun _ => "<issue>none</issue>") (fun _ => "out") (fun _ => 0)
    "s" "i" 5 ⟨some (.other "boom"), [], 0⟩ (.other "boom") (by decide)

/-- C8 counterexample: the setup stage does not re-raise a previously
captured exception at entry — with exception "boom" already present in the
agent state it still runs its loop and returns a normal update, not the
captured exception. -/
theorem C8_setup_no_entry_check_counterexample :
    setup (fun _ => "<stop></stop>") (fun _ => "out") (fun _ => "res") (fun _ => 0) "s" "i" 1
        ⟨some (.other "boom"), [], 0⟩
      = .ok ⟨[⟨.system, "s"⟩, ⟨.user, "i"⟩, ⟨.assistant, "<stop></stop>"⟩],
          [⟨.assistant, "<stop></stop>"⟩], [], []⟩ := by
  simp +decide [setup, setupBody, auto_catch, setupLoop]

/-- C10 (amended): for every reply whose first recognized tag is
issue-tagged text, the parsed issue value is that text stripped of
surrounding whitespace and fully lowercased; when the normalized text is
neither the sentinel "none" nor empty, the verify loop records and returns
exactly this normalized text (so the original casing of a reported problem
is never preserved), and when it is "none" or empty the loop instead
records a null issue with success flag true. -/
theorem C10_issue_normalization (oracle : List Message → String) (session : String → String)
    (elapsed : Nat → Nat) (p maxSteps : Nat) (st : LoopState) (resp : String)
    (hstep : st.step < maxSteps)
    (hthink : stripThink (oracle (verify_input_messages st.messages p)) = .ok resp)
    (hnc : pyContains resp "<command>" = false)
    (hic : pyContains resp "<issue>" = true) :
    parse_verify_action resp =
      some (.issue (pyLower (pyStrip (pyGet (pySplit (pyGet (pySplit resp "<issue>") 1)
        "</issue>") 0)))) ∧
    (∀ t, parse_verify_action resp = some (.issue t) →
      (t ≠ "none" → t ≠ "" →
        (verifyLoop oracle session elapsed p maxSteps st).map (fun r => (r.issue, r.success))
          = .ok (some t, false)) ∧
      (t = "none" ∨ t = "" →
        (verifyLoop oracle session elapsed p maxSteps st).map (fun r => (r.issue, r.success))
          = .ok (none, true))) := by
  constructor
  · simp [parse_verify_action, hnc, hic]
  · intro t hp
    rw [verifyLoop_issue_step oracle session elapsed p maxSteps st resp t hstep hthink hp]
    constructor
    · intro hn he
      simp [hn, he, Except.map]
    · intro h
      rcases h with h | h
      · subst h
        simp +decide [Except.map]
      · subst h
        simp +decide [Except.map]

theorem C10_issue_normalization_witness :
    parse_verify_action "<issue>Bad Setup</issue>" =
      some (.issue (pyLower (pyStrip (pyGet (pySplit (pyGet (pySplit "<issue>Bad Setup</issue>"
        "<issue>") 1) "</issue>") 0)))) :=
  (C10_issue_normalization (fun _ => "<issue>Bad Setup</issue>") (fun _ => "out") (fun _ => 0)
    2 5 ⟨[⟨.system, "s"⟩, ⟨.user, "i"⟩], [], 0⟩ "<issue>Bad Setup</issue>"
    (by decide) (by decide) (by decide) (by decide)).1

/-- C10 counterexample: for the reply `<issue>None</issue>` — whose tag text
"None" strips to a non-empty string and lowercases to "none" — the verify
loop records and returns a null issue with success true, not the normalized
text "none". -/
theorem C10_issue_none_counterexample :
    (verifyLoop (fun _ => "<issue>None</issue>") (fun _ => "out") (fun _ => 0) 2 5
        ⟨[⟨.system, "s"⟩, ⟨.user, "i"⟩], [], 0⟩).map (fun r => (r.issue, r.success))
      = .ok (none, true) ∧
    pyStrip "None" ≠ "" ∧ pyLower (pyStrip "None") = "none" :=
  ⟨by simp +decide [verifyLoop], by decide, by decide⟩

end Launch
